import Mathlib

/-!
Shallow embedding of the two server-side request handlers of the
tmdb-test repository:

* `src/pages/api/ai-search-parser.ts` — the intent parser: the
  deterministic keyword fallback `mockLLM_Parse` and the remote-backed
  `realLLM_Parse` (the remote call, the JSON parse of its text and the
  shape check, with every internal failure absorbed into a fallback
  descriptor).
* `src/pages/api/tmdb-proxy.ts` — the catalog gateway `handler`:
  parameter merging onto the outbound URL (three fixed defaults set
  first, then every truthy caller parameter) and the mapping of the
  provider's outcome to the HTTP response.

Strings are modelled with Lean's `String`; `toLowerCase().trim()` is
modelled character-wise by `jsNormalize` (ASCII-faithful, which covers
every keyword the heuristic matches).  JavaScript exceptions are modelled
by `Except`, the remote call and `JSON.parse` by explicit outcome
parameters, and `URLSearchParams.set` by replace-first-or-append on an
association list.
-/

namespace TmdbTest

/-- Does `pat` occur as a contiguous run inside the character list? -/
def hasInfix (pat : List Char) : List Char → Bool
  | [] => pat.isPrefixOf []
  | c :: cs => pat.isPrefixOf (c :: cs) || hasInfix pat cs

/-- JavaScript `String.prototype.includes`: substring containment. -/
def strIncludes (s pat : String) : Bool :=
  hasInfix pat.data s.data

/-- Strip whitespace from both ends of a character list. -/
def trimList (l : List Char) : List Char :=
  ((l.dropWhile Char.isWhitespace).reverse.dropWhile Char.isWhitespace).reverse

/-- JavaScript `String.prototype.trim`, modelled at the character
level. -/
def jsTrim (s : String) : String :=
  String.mk (trimList s.data)

/-- JavaScript `searchTerm.toLowerCase().trim()`, modelled at the
character level: ASCII case folding, then whitespace stripped from both
ends of the whole string. -/
def jsNormalize (s : String) : String :=
  String.mk (trimList (s.data.map Char.toLower))

/-- The `AISearchResult` interface of `ai-search-parser.ts`: a catalog
route plus an ordered bag of string-valued query parameters. -/
structure AISearchResult where
  path : String
  params : List (String × String)
deriving DecidableEq, Repr

/-- `mockLLM_Parse` of `ai-search-parser.ts`: the function reassigns its
`searchTerm` parameter to `searchTerm.toLowerCase().trim()` and then
applies the three keyword rules; the final branch returns the reassigned
(normalized) term as the `query` value. -/
def mockLLM_Parse (searchTerm : String) : AISearchResult :=
  let searchTerm := jsNormalize searchTerm
  if strIncludes searchTerm "mind-bending" || strIncludes searchTerm "sci-fi" then
    { path := "discover/movie"
      params := [("with_genres", "878"), ("vote_average.gte", "7.5")] }
  else if strIncludes searchTerm "best of 2024" || strIncludes searchTerm "newest hits" then
    { path := "discover/movie"
      params := [("vote_average.gte", "7"), ("primary_release_year", "2024")] }
  else if strIncludes searchTerm "best" || strIncludes searchTerm "top rated" then
    { path := "discover/movie"
      params := [("vote_average.gte", "8.5"), ("sort_by", "vote_count.desc")] }
  else
    { path := "search/movie"
      params := [("query", searchTerm)] }

/-- Does the result carry a parameter named `k`? -/
def AISearchResult.hasParam (r : AISearchResult) (k : String) : Bool :=
  r.params.any (fun p => p.1 == k)

/-- The `SearchIntent` route invariant: the path is one of the two
catalog routes, a `search/movie` result carries a `query` parameter and
a `discover/movie` result carries none. -/
def routeInvariant (r : AISearchResult) : Bool :=
  (r.path == "search/movie" && r.hasParam "query") ||
    (r.path == "discover/movie" && !r.hasParam "query")

/-- C5: every search string whose lowercased, trimmed form contains
"sci-fi" is sent to `discover/movie` with exactly
`with_genres = "878"` and `vote_average.gte = "7.5"`. -/
theorem mockParse_scifi_rule (s : String) (_hne : s ≠ "")
    (h : strIncludes (jsNormalize s) "sci-fi" = true) :
    mockLLM_Parse s =
      { path := "discover/movie"
        params := [("with_genres", "878"), ("vote_average.gte", "7.5")] } := by
  unfold mockLLM_Parse
  simp [h]

/-- Witness for C5 at the concrete input "A great Sci-Fi film". -/
theorem mockParse_scifi_rule_witness :
    mockLLM_Parse "A great Sci-Fi film" =
      { path := "discover/movie"
        params := [("with_genres", "878"), ("vote_average.gte", "7.5")] } :=
  mockParse_scifi_rule "A great Sci-Fi film" (by decide) (by decide)

/-- C6: the input "best of 2024" takes the rule-2 branch (rating 7,
year 2024), not the generic rule-3 "best" branch, because the more
specific phrase is checked first. -/
theorem mockParse_best_of_2024_rule :
    mockLLM_Parse "best of 2024" =
      { path := "discover/movie"
        params := [("vote_average.gte", "7"), ("primary_release_year", "2024")] } ∧
    mockLLM_Parse "best of 2024" ≠
      { path := "discover/movie"
        params := [("vote_average.gte", "8.5"), ("sort_by", "vote_count.desc")] } := by
  constructor
  · decide
  · decide

/-- C10: for every input string the deterministic fallback satisfies the
route invariant: path is `search/movie` (with a `query` param) or
`discover/movie` (without one). -/
theorem mockParse_route_invariant (s : String) :
    routeInvariant (mockLLM_Parse s) = true := by
  simp only [mockLLM_Parse]
  split
  · rfl
  · split
    · rfl
    · split
      · rfl
      · rfl

/-- C2 counterexample: at the input "DUNE" (which matches none of the
six keywords) the fallback's `query` is the lowercased form "dune", not
the original string "DUNE" as the claim states. -/
theorem mockParse_query_not_original :
    strIncludes (jsNormalize "DUNE") "mind-bending" = false ∧
    strIncludes (jsNormalize "DUNE") "sci-fi" = false ∧
    strIncludes (jsNormalize "DUNE") "best of 2024" = false ∧
    strIncludes (jsNormalize "DUNE") "newest hits" = false ∧
    strIncludes (jsNormalize "DUNE") "best" = false ∧
    strIncludes (jsNormalize "DUNE") "top rated" = false ∧
    (mockLLM_Parse "DUNE").path = "search/movie" ∧
    (mockLLM_Parse "DUNE").params = [("query", "dune")] ∧
    (mockLLM_Parse "DUNE").params ≠ [("query", "DUNE")] := by
  decide

/-- C2 as amended: when the lowercased, trimmed input matches none of
the six keywords, the fallback returns `search/movie` with `query` equal
to the lowercased, trimmed form of the input (the code reassigns its
parameter before building the result). -/
theorem mockParse_default_branch_normalized_query (s : String)
    (h1 : strIncludes (jsNormalize s) "mind-bending" = false)
    (h2 : strIncludes (jsNormalize s) "sci-fi" = false)
    (h3 : strIncludes (jsNormalize s) "best of 2024" = false)
    (h4 : strIncludes (jsNormalize s) "newest hits" = false)
    (h5 : strIncludes (jsNormalize s) "best" = false)
    (h6 : strIncludes (jsNormalize s) "top rated" = false) :
    mockLLM_Parse s =
      { path := "search/movie", params := [("query", jsNormalize s)] } := by
  unfold mockLLM_Parse
  simp [h1, h2, h3, h4, h5, h6]

/-- Witness for the amended C2 at the concrete input "DUNE". -/
theorem mockParse_default_branch_normalized_query_witness :
    mockLLM_Parse "DUNE" =
      { path := "search/movie", params := [("query", jsNormalize "DUNE")] } :=
  mockParse_default_branch_normalized_query "DUNE" (by decide) (by decide)
    (by decide) (by decide) (by decide) (by decide)

/-- A JSON value, the possible outputs of `JSON.parse`. -/
inductive JsonValue where
  | null
  | bool (b : Bool)
  | num (n : Int)
  | str (s : String)
  | arr (elems : List JsonValue)
  | obj (fields : List (String × JsonValue))

/-- JavaScript property access `v[k]` on a parsed JSON value: a field
lookup on objects, `undefined` (here `none`) on everything else.  Access
on `null` throws instead; `shapeCheck` handles that case separately. -/
def getProp (v : JsonValue) (k : String) : Option JsonValue :=
  match v with
  | .obj fields => fields.lookup k
  | _ => none

/-- JavaScript `typeof v === "object"` for a parsed JSON value: true for
objects, arrays and `null`. -/
def typeofIsObject : JsonValue → Bool
  | .obj _ => true
  | .arr _ => true
  | .null => true
  | _ => false

/-- The "final sanity check" of `realLLM_Parse` (lines 122–124):
accessing `.path` on `null` throws a `TypeError`; otherwise the parsed
value is rejected unless `typeof path === "string"` and
`typeof params === "object"`. -/
def shapeCheck (v : JsonValue) : Except String JsonValue :=
  match v with
  | .null => .error "TypeError: cannot read properties of null"
  | v =>
    let pathOk : Bool :=
      match getProp v "path" with
      | some (.str _) => true
      | _ => false
    let paramsOk : Bool :=
      match getProp v "params" with
      | some p => typeofIsObject p
      | none => false
    if pathOk && paramsOk then .ok v else .error "AI response structure is invalid."

/-- Outcome of the one `generateContent` call: the promise either
rejects, or resolves with a response whose `text` field may be missing
(`none`) or any string. -/
inductive CallOutcome where
  | callError
  | success (text : Option String)

/-- The minimal fallback descriptor built in the `catch` of
`realLLM_Parse`: `{ path: "search/movie", params: { query: searchTerm } }`
with the original, unmodified search term. -/
def minimalFallback (searchTerm : String) : AISearchResult :=
  { path := "search/movie", params := [("query", searchTerm)] }

/-- View an `AISearchResult` as the JSON object the handler serializes. -/
def AISearchResult.toJson (r : AISearchResult) : JsonValue :=
  .obj [("path", .str r.path),
        ("params", .obj (r.params.map (fun p => (p.1, .str p.2))))]

/-- The body of the `try` block of `realLLM_Parse` (lines 103–126),
given the outcome of the remote call and the behaviour of `JSON.parse`
(`jsonParse pat = none` models a `SyntaxError`): check `response.text`
for falsiness (`undefined` or the empty string), parse the trimmed text,
then run the shape check. -/
def llmAttempt (jsonParse : String → Option JsonValue) (outcome : CallOutcome) :
    Except String JsonValue :=
  match outcome with
  | .callError => .error "network or service error"
  | .success none =>
    .error "Gemini API failed to return structured text content, possibly due to a safety block or internal error."
  | .success (some t) =>
    if t = "" then
      .error "Gemini API failed to return structured text content, possibly due to a safety block or internal error."
    else
      match jsonParse (jsTrim t) with
      | none => .error "SyntaxError: unexpected token in JSON"
      | some v => shapeCheck v

/-- JavaScript falsiness of an optional environment string: absent or
empty credentials both count as missing (`if (!AI_API_KEY)`). -/
def keyMissing : Option String → Bool
  | none => true
  | some s => s == ""

/-- `realLLM_Parse` of `ai-search-parser.ts`: with the credential
missing it returns the deterministic heuristic's result; otherwise it
runs the remote attempt and converts any thrown error into the minimal
fallback descriptor.  The result is `Except` to make the no-throw
contract visible: an uncaught exception would be `.error`. -/
def realLLM_Parse (apiKey : Option String) (jsonParse : String → Option JsonValue)
    (outcome : CallOutcome) (searchTerm : String) : Except String JsonValue :=
  if keyMissing apiKey then
    .ok (AISearchResult.toJson (mockLLM_Parse searchTerm))
  else
    match llmAttempt jsonParse outcome with
    | .ok v => .ok v
    | .error _ => .ok (AISearchResult.toJson (minimalFallback searchTerm))

/-- Every run of `realLLM_Parse` resolves with a value: the `catch`
block converts each internal throw into the fallback descriptor. -/
theorem realLLM_Parse_ok (apiKey : Option String) (jsonParse : String → Option JsonValue)
    (outcome : CallOutcome) (searchTerm : String) :
    ∃ v, realLLM_Parse apiKey jsonParse outcome searchTerm = .ok v := by
  unfold realLLM_Parse
  split
  · exact ⟨_, rfl⟩
  · cases hl : llmAttempt jsonParse outcome
    · exact ⟨_, rfl⟩
    · exact ⟨_, rfl⟩

/-- C1: for every string input and every outcome of the remote call
(missing credential, service error, empty response text, JSON parse
error, shape-validation failure) the intent parser's `realLLM_Parse`
never raises or rejects: it resolves with some value. -/
theorem realLLM_Parse_never_fails (apiKey : Option String)
    (jsonParse : String → Option JsonValue) (outcome : CallOutcome)
    (searchTerm : String) :
    ∃ v, realLLM_Parse apiKey jsonParse outcome searchTerm = .ok v :=
  realLLM_Parse_ok apiKey jsonParse outcome searchTerm

/-- The remote attempt came back unusable: the call rejected, the
response text was missing or empty, the text did not parse as JSON, or
the parsed value failed the shape check. -/
def outcomeUnusable (jsonParse : String → Option JsonValue) (outcome : CallOutcome) : Prop :=
  outcome = .callError ∨
  outcome = .success none ∨
  outcome = .success (some "") ∨
  (∃ t, outcome = .success (some t) ∧ jsonParse (jsTrim t) = none) ∨
  (∃ t v, outcome = .success (some t) ∧ jsonParse (jsTrim t) = some v ∧
    ∃ e, shapeCheck v = .error e)

/-- An unusable remote attempt always surfaces as a thrown error inside
the `try` block. -/
theorem llmAttempt_error_of_unusable (jsonParse : String → Option JsonValue)
    (outcome : CallOutcome) (h : outcomeUnusable jsonParse outcome) :
    ∃ e, llmAttempt jsonParse outcome = .error e := by
  rcases h with h | h | h | ⟨t, h, hp⟩ | ⟨t, v, h, hp, e, hs⟩
  · subst h
    exact ⟨_, rfl⟩
  · subst h
    exact ⟨_, rfl⟩
  · subst h
    exact ⟨_, rfl⟩
  · subst h
    by_cases ht : t = ""
    · subst ht
      exact ⟨_, rfl⟩
    · simp only [llmAttempt, if_neg ht, hp]
      exact ⟨_, rfl⟩
  · subst h
    by_cases ht : t = ""
    · subst ht
      exact ⟨_, rfl⟩
    · simp only [llmAttempt, if_neg ht, hp, hs]
      exact ⟨_, rfl⟩

/-- C4: failures are absorbed and mapped as the spec states — with the
credential absent `realLLM_Parse` returns the deterministic heuristic's
result; with the credential present and an unusable remote attempt it
returns exactly `{ path: "search/movie", params: { query: searchTerm } }`;
and in no case is an error propagated to the caller. -/
theorem realLLM_Parse_failure_mapping (searchTerm key : String)
    (jsonParse : String → Option JsonValue) (outcome : CallOutcome)
    (hkey : key ≠ "") (hbad : outcomeUnusable jsonParse outcome) :
    realLLM_Parse none jsonParse outcome searchTerm =
      .ok (AISearchResult.toJson (mockLLM_Parse searchTerm)) ∧
    realLLM_Parse (some key) jsonParse outcome searchTerm =
      .ok (AISearchResult.toJson (minimalFallback searchTerm)) ∧
    ∀ jp2 oc2, ∃ v, realLLM_Parse (some key) jp2 oc2 searchTerm = .ok v := by
  refine ⟨rfl, ?_, fun jp2 oc2 => realLLM_Parse_ok (some key) jp2 oc2 searchTerm⟩
  obtain ⟨e, he⟩ := llmAttempt_error_of_unusable jsonParse outcome hbad
  have hk : keyMissing (some key) = false := by
    simp [keyMissing, hkey]
  unfold realLLM_Parse
  simp [hk, he]

/-- Witness for C4 at the input "dune" with credential "k" and a
rejecting remote call. -/
theorem realLLM_Parse_failure_mapping_witness :
    realLLM_Parse none (fun _ => none) CallOutcome.callError "dune" =
      .ok (AISearchResult.toJson (mockLLM_Parse "dune")) ∧
    realLLM_Parse (some "k") (fun _ => none) CallOutcome.callError "dune" =
      .ok (AISearchResult.toJson (minimalFallback "dune")) :=
  ⟨(realLLM_Parse_failure_mapping "dune" "k" (fun _ => none) CallOutcome.callError
      (by decide) (Or.inl rfl)).1,
   (realLLM_Parse_failure_mapping "dune" "k" (fun _ => none) CallOutcome.callError
      (by decide) (Or.inl rfl)).2.1⟩

/-- A value of the Next.js `req.query` bag: a single string, or a list
of strings when the parameter arrived multi-valued. -/
inductive QueryValue where
  | str (s : String)
  | arr (xs : List String)
deriving DecidableEq, Repr

/-- JavaScript truthiness of a `req.query` value: only the empty string
is falsy; every array (even an empty one) is truthy. -/
def truthy : QueryValue → Bool
  | .str s => s != ""
  | .arr _ => true

/-- `Array.isArray(value) ? value[0] : String(value)`: the first element
of a list (indexing past the end yields `undefined`, which
`URLSearchParams.set` stringifies), the string itself otherwise. -/
def firstValue : QueryValue → String
  | .str s => s
  | .arr [] => "undefined"
  | .arr (x :: _) => x

/-- The parts of an incoming gateway request the handler inspects. -/
structure ProxyRequest where
  method : String
  query : List (String × QueryValue)

/-- An HTTP response: status code plus JSON body. -/
structure HttpResponse where
  status : Nat
  body : JsonValue

/-- The outbound provider request the gateway builds: the
provider-relative route and the query parameters in insertion order. -/
structure OutboundRequest where
  path : String
  params : List (String × String)

/-- Outcome of the gateway's one `fetch`: a transport failure, or a
provider response with a status code and a body (`none` when the body
does not parse as JSON, so `tmdbResponse.json()` rejects). -/
inductive FetchOutcome where
  | networkError
  | response (status : Nat) (body : Option JsonValue)

/-- `URLSearchParams.set`: overwrite the first entry carrying the key
(dropping later duplicates), or append the pair at the end. -/
def setParam : List (String × String) → String → String → List (String × String)
  | [], k, v => [(k, v)]
  | p :: ps, k, v =>
    if p.1 == k then (k, v) :: ps.filter (fun q => q.1 != k)
    else p :: setParam ps k v

/-- First-match lookup of a query parameter by key. -/
def lookupParam (k : String) : List (String × String) → Option String
  | [] => none
  | p :: ps => if p.1 == k then some p.2 else lookupParam k ps

/-- The three fixed parameters the handler sets first (lines 89–91):
`language=en-US`, `page=1`, `include_adult=false`. -/
def defaultParams : List (String × String) :=
  setParam (setParam (setParam [] "language" "en-US") "page" "1") "include_adult" "false"

/-- The `Object.entries(rest).forEach` loop (lines 94–100): every truthy
caller parameter is set on the URL, in order; falsy values (the empty
string) are skipped. -/
def addCallerParams (rest : List (String × QueryValue)) (acc : List (String × String)) :
    List (String × String) :=
  rest.foldl (fun acc kv => if truthy kv.2 then setParam acc kv.1 (firstValue kv.2) else acc) acc

/-- The gateway `handler` of `tmdb-proxy.ts`: method check, credential
check, `path` type check, URL building (fixed defaults first, then the
caller's parameters) and the mapping of the fetch outcome to the HTTP
response.  The second component is the outbound request, `none` when no
outbound call is made. -/
def handler (token : Option String) (req : ProxyRequest) (fetchOutcome : FetchOutcome) :
    HttpResponse × Option OutboundRequest :=
  if req.method != "GET" then
    (⟨405, .obj [("message", .str "Method Not Allowed")]⟩, none)
  else if keyMissing token then
    (⟨500, .obj [("message", .str "Server configuration error: TMDB_ACCESS_TOKEN is missing.")]⟩,
      none)
  else
    match req.query.lookup "path" with
    | some (QueryValue.str p) =>
      let rest := req.query.filter (fun kv => kv.1 != "path")
      let out : OutboundRequest := ⟨p, addCallerParams rest defaultParams⟩
      match fetchOutcome with
      | .networkError =>
        (⟨500, .obj [("message", .str "Server network error when connecting to TMDB.")]⟩, some out)
      | .response status body =>
        match body with
        | none =>
          (⟨500, .obj [("message", .str "Server network error when connecting to TMDB.")]⟩,
            some out)
        | some data =>
          if 200 ≤ status ∧ status ≤ 299 then
            (⟨200, data⟩, some out)
          else
            (⟨status,
              .obj [("message", .str ("TMDB API failed with status " ++ toString status ++ ".")),
                    ("details", data)]⟩, some out)
    | _ =>
      (⟨400, .obj [("message", .str "Missing or invalid \x22path\x22 query parameter.")]⟩, none)

/-- Dropping the entries with key `k` does not change lookups of other
keys. -/
theorem lookupParam_filterOut (t : List (String × String)) (k k' : String) (h : k' ≠ k) :
    lookupParam k' (t.filter (fun q => q.1 != k)) = lookupParam k' t := by
  induction t with
  | nil => rfl
  | cons q t ih =>
    by_cases hq : q.1 == k
    · have hqk : q.1 = k := eq_of_beq hq
      have h1 : (q.1 != k) = false := by simp [bne, hq]
      have h2 : (q.1 == k') = false := by
        rw [beq_eq_false_iff_ne, hqk]
        exact Ne.symm h
      simp [List.filter_cons, h1, lookupParam, h2, ih]
    · have h1 : (q.1 != k) = true := by simp [bne, hq]
      simp [List.filter_cons, h1, lookupParam, ih]

/-- After `setParam ps k v`, looking up `k` yields `v`. -/
theorem lookupParam_setParam_self (ps : List (String × String)) (k v : String) :
    lookupParam k (setParam ps k v) = some v := by
  induction ps with
  | nil => simp [setParam, lookupParam]
  | cons p t ih =>
    by_cases hp : p.1 == k
    · simp [setParam, hp, lookupParam]
    · simp [setParam, hp, lookupParam, ih]

/-- `setParam ps k v` does not change lookups of other keys. -/
theorem lookupParam_setParam_ne (ps : List (String × String)) (k v k' : String) (h : k' ≠ k) :
    lookupParam k' (setParam ps k v) = lookupParam k' ps := by
  induction ps with
  | nil =>
    have hk : (k == k') = false := by
      rw [beq_eq_false_iff_ne]
      exact Ne.symm h
    simp [setParam, lookupParam, hk]
  | cons p t ih =>
    by_cases hp : p.1 == k
    · have hpk : p.1 = k := eq_of_beq hp
      have h1 : (k == k') = false := by
        rw [beq_eq_false_iff_ne]
        exact Ne.symm h
      have h2 : (p.1 == k') = false := by
        rw [beq_eq_false_iff_ne, hpk]
        exact Ne.symm h
      simp [setParam, hp, lookupParam, h1, h2]
      exact lookupParam_filterOut t k k' h
    · simp [setParam, hp, lookupParam, ih]

/-- Unfolding one step of the caller-parameter loop. -/
theorem addCallerParams_cons (kv : String × QueryValue) (t : List (String × QueryValue))
    (acc : List (String × String)) :
    addCallerParams (kv :: t) acc =
      addCallerParams t (if truthy kv.2 then setParam acc kv.1 (firstValue kv.2) else acc) := by
  simp only [addCallerParams, List.foldl_cons]

/-- Keys the caller never supplies with a truthy value are untouched by
the caller-parameter loop. -/
theorem lookupParam_addCallerParams_of_not_supplied (rest : List (String × QueryValue))
    (k : String) (h : ∀ kv ∈ rest, kv.1 = k → truthy kv.2 = false) :
    ∀ acc, lookupParam k (addCallerParams rest acc) = lookupParam k acc := by
  induction rest with
  | nil => intro acc; rfl
  | cons kv t ih =>
    intro acc
    rw [addCallerParams_cons]
    by_cases htr : truthy kv.2
    · have hne : k ≠ kv.1 := by
        intro hh
        have := h kv (List.mem_cons_self kv t) hh.symm
        rw [this] at htr
        exact Bool.false_ne_true htr
      rw [if_pos htr]
      rw [ih (fun kv' hkv' => h kv' (List.mem_cons_of_mem kv hkv'))]
      exact lookupParam_setParam_ne acc kv.1 (firstValue kv.2) k hne
    · rw [if_neg htr]
      exact ih (fun kv' hkv' => h kv' (List.mem_cons_of_mem kv hkv')) acc

/-- When the caller supplies key `k` with a truthy value and keys are
unique, the loop leaves `k` bound to the first element of that value. -/
theorem lookupParam_addCallerParams_mem (rest : List (String × QueryValue))
    (k : String) (v : QueryValue) (hnd : (rest.map Prod.fst).Nodup)
    (hm : (k, v) ∈ rest) (ht : truthy v = true) :
    ∀ acc, lookupParam k (addCallerParams rest acc) = some (firstValue v) := by
  induction rest with
  | nil => cases hm
  | cons kv t ih =>
    intro acc
    rw [List.map_cons] at hnd
    have hpair := List.nodup_cons.mp hnd
    rw [addCallerParams_cons]
    rcases List.mem_cons.mp hm with heq | hmt
    · have hk1 : kv.1 = k := by rw [← heq]
      have hk2 : kv.2 = v := by rw [← heq]
      have hknotin : k ∉ t.map Prod.fst := hk1 ▸ hpair.1
      have hnotsup : ∀ kv' ∈ t, kv'.1 = k → truthy kv'.2 = false := by
        intro kv' hkv' hk'
        exact absurd (hk' ▸ List.mem_map_of_mem Prod.fst hkv') hknotin
      rw [hk1, hk2, if_pos ht]
      rw [lookupParam_addCallerParams_of_not_supplied t k hnotsup]
      exact lookupParam_setParam_self acc k (firstValue v)
    · exact ih hpair.2 hmt _

/-- Whenever the handler gets past its three checks it builds one fixed
outbound request — defaults set first, the caller's truthy parameters
folded on top — whatever the fetch outcome is. -/
theorem handler_outbound (token : Option String) (req : ProxyRequest) (fo : FetchOutcome)
    (p : String) (hm : req.method = "GET") (htok : keyMissing token = false)
    (hpath : req.query.lookup "path" = some (QueryValue.str p)) :
    (handler token req fo).2 =
      some ⟨p, addCallerParams (req.query.filter (fun kv => kv.1 != "path")) defaultParams⟩ := by
  cases fo with
  | networkError => simp [handler, hm, htok, hpath]
  | response status body =>
    cases body with
    | none => simp [handler, hm, htok, hpath]
    | some data =>
      by_cases hst : 200 ≤ status ∧ status ≤ 299
      · simp [handler, hm, htok, hpath, hst]
      · simp [handler, hm, htok, hpath, hst]

/-- C3 counterexample: for a GET request carrying `path=movie/popular`
and `page=3`, the outbound URL carries `page=3` — the caller's value,
not the fixed default `1` the claim says should win the collision. -/
theorem handler_caller_page_overrides_default :
    ((handler (some "tok")
        ⟨"GET", [("path", QueryValue.str "movie/popular"), ("page", QueryValue.str "3")]⟩
        FetchOutcome.networkError).2.map (fun o => lookupParam "page" o.params)) =
      some (some "3") ∧
    ((handler (some "tok")
        ⟨"GET", [("path", QueryValue.str "movie/popular"), ("page", QueryValue.str "3")]⟩
        FetchOutcome.networkError).2.map (fun o => lookupParam "page" o.params)) ≠
      some (some "1") := by
  constructor
  · rfl
  · decide

/-- C3 as amended: the handler sets the three fixed parameters first and
then copies every truthy caller parameter, so when a caller-supplied key
collides with `language`, `page` or `include_adult`, the caller's value
(not the fixed default) appears in the outbound URL. -/
theorem handler_defaults_then_caller_params (token : Option String) (req : ProxyRequest)
    (fo : FetchOutcome) (p k : String) (v : QueryValue)
    (hm : req.method = "GET") (htok : keyMissing token = false)
    (hpath : req.query.lookup "path" = some (QueryValue.str p))
    (hnd : (req.query.map Prod.fst).Nodup)
    (hmem : (k, v) ∈ req.query) (ht : truthy v = true)
    (hfix : k = "language" ∨ k = "page" ∨ k = "include_adult") :
    ∃ out, (handler token req fo).2 = some out ∧
      lookupParam k out.params = some (firstValue v) := by
  refine ⟨_, handler_outbound token req fo p hm htok hpath, ?_⟩
  have hkp : k ≠ "path" := by
    rcases hfix with h | h | h <;> subst h <;> decide
  apply lookupParam_addCallerParams_mem
  · exact List.Nodup.sublist ((List.filter_sublist req.query).map Prod.fst) hnd
  · refine List.mem_filter.mpr ⟨hmem, ?_⟩
    simpa [bne_iff_ne] using hkp
  · exact ht

/-- Witness for the amended C3: the caller's `page=3` ends up in the
outbound URL. -/
theorem handler_defaults_then_caller_params_witness :
    ∃ out, (handler (some "tok")
        ⟨"GET", [("path", QueryValue.str "movie/popular"), ("page", QueryValue.str "3")]⟩
        FetchOutcome.networkError).2 = some out ∧
      lookupParam "page" out.params = some (firstValue (QueryValue.str "3")) :=
  handler_defaults_then_caller_params (some "tok")
    ⟨"GET", [("path", QueryValue.str "movie/popular"), ("page", QueryValue.str "3")]⟩
    FetchOutcome.networkError "movie/popular" "page" (QueryValue.str "3")
    rfl rfl rfl (by decide) (by decide) (by decide) (Or.inr (Or.inl rfl))

/-- C7 counterexample: the parameter `query` arrives with the empty
string as its value and is silently omitted from the outbound URL, so
not every incoming parameter other than `path` is copied. -/
theorem handler_empty_value_param_omitted :
    ("query", QueryValue.str "") ∈
      [("path", QueryValue.str "search/movie"), ("query", QueryValue.str "")] ∧
    ((handler (some "tok")
        ⟨"GET", [("path", QueryValue.str "search/movie"), ("query", QueryValue.str "")]⟩
        FetchOutcome.networkError).2.map (fun o => lookupParam "query" o.params)) =
      some none := by
  constructor
  · decide
  · rfl

/-- C7 as amended: every incoming parameter other than `path` whose
value is truthy (a non-empty string, or any multi-value list, of which
the first element is used) is copied into the outbound URL; a parameter
whose value is the empty string is skipped. -/
theorem handler_copies_truthy_params (token : Option String) (req : ProxyRequest)
    (fo : FetchOutcome) (p k : String) (v : QueryValue)
    (hm : req.method = "GET") (htok : keyMissing token = false)
    (hpath : req.query.lookup "path" = some (QueryValue.str p))
    (hnd : (req.query.map Prod.fst).Nodup)
    (hmem : (k, v) ∈ req.query) (hk : k ≠ "path") (ht : truthy v = true) :
    ∃ out, (handler token req fo).2 = some out ∧
      lookupParam k out.params = some (firstValue v) := by
  refine ⟨_, handler_outbound token req fo p hm htok hpath, ?_⟩
  apply lookupParam_addCallerParams_mem
  · exact List.Nodup.sublist ((List.filter_sublist req.query).map Prod.fst) hnd
  · refine List.mem_filter.mpr ⟨hmem, ?_⟩
    simpa [bne_iff_ne] using hk
  · exact ht

/-- Witness for the amended C7: `query=Dune` is copied to the outbound
URL and a multi-valued `year` contributes its first element. -/
theorem handler_copies_truthy_params_witness :
    ∃ out, (handler (some "tok")
        ⟨"GET", [("path", QueryValue.str "search/movie"), ("query", QueryValue.str "Dune")]⟩
        FetchOutcome.networkError).2 = some out ∧
      lookupParam "query" out.params = some (firstValue (QueryValue.str "Dune")) :=
  handler_copies_truthy_params (some "tok")
    ⟨"GET", [("path", QueryValue.str "search/movie"), ("query", QueryValue.str "Dune")]⟩
    FetchOutcome.networkError "search/movie" "query" (QueryValue.str "Dune")
    rfl rfl rfl (by decide) (by decide) (by decide) (by decide)

/-- C8: when the provider answers with a non-success status and a JSON
payload, the gateway responds with that same status and nests the
payload under `details` (next to the fixed failure message). -/
theorem handler_propagates_provider_status (token : Option String) (req : ProxyRequest)
    (p : String) (status : Nat) (data : JsonValue)
    (hm : req.method = "GET") (htok : keyMissing token = false)
    (hpath : req.query.lookup "path" = some (QueryValue.str p))
    (hst : ¬(200 ≤ status ∧ status ≤ 299)) :
    (handler token req (FetchOutcome.response status (some data))).1 =
      ⟨status,
        .obj [("message", .str ("TMDB API failed with status " ++ toString status ++ ".")),
              ("details", data)]⟩ := by
  simp [handler, hm, htok, hpath, hst]

/-- Witness for C8: a 404 from the provider is answered with status 404
and the provider's payload under `details`. -/
theorem handler_propagates_provider_status_witness :
    (handler (some "tok") ⟨"GET", [("path", QueryValue.str "movie/popular")]⟩
        (FetchOutcome.response 404
          (some (JsonValue.obj [("status_message", JsonValue.str "not found")])))).1 =
      ⟨404,
        JsonValue.obj
          [("message", JsonValue.str ("TMDB API failed with status " ++ toString 404 ++ ".")),
           ("details", JsonValue.obj [("status_message", JsonValue.str "not found")])]⟩ :=
  handler_propagates_provider_status (some "tok")
    ⟨"GET", [("path", QueryValue.str "movie/popular")]⟩ "movie/popular" 404
    (JsonValue.obj [("status_message", JsonValue.str "not found")]) rfl rfl rfl (by decide)

/-- C9: with the credential unset (or empty), every GET request is
answered with status 500 and the configuration-error message, and no
outbound call is made. -/
theorem handler_missing_token_500 (token : Option String) (req : ProxyRequest)
    (fo : FetchOutcome) (hm : req.method = "GET") (htok : keyMissing token = true) :
    handler token req fo =
      (⟨500,
        .obj [("message",
          .str "Server configuration error: TMDB_ACCESS_TOKEN is missing.")]⟩, none) := by
  simp [handler, hm, htok]

/-- Witness for C9 at a concrete GET request with no token. -/
theorem handler_missing_token_500_witness :
    handler none ⟨"GET", [("path", QueryValue.str "movie/popular")]⟩ FetchOutcome.networkError =
      (⟨500,
        JsonValue.obj [("message",
          JsonValue.str "Server configuration error: TMDB_ACCESS_TOKEN is missing.")]⟩, none) :=
  handler_missing_token_500 none ⟨"GET", [("path", QueryValue.str "movie/popular")]⟩
    FetchOutcome.networkError rfl rfl

end TmdbTest
